import Mathlib

/-!
Shallow embedding of the two scripts of galenxing/utilities:
`utilities/aegea_launcher.py` (batch-job submission helper) and
`utilities/demux/bcl2fastq.py` (demultiplexing runner).  Every definition
mirrors the Python source; the theorems settle the specification claims.
External effects (S3 calls, subprocesses, the filesystem) are modelled as
events in a trace, with the outside world supplying success/failure bits.
-/

/-- Char-list test: does the second list start with the first.  Mirrors
Python str.startswith on the underlying characters. -/
def isPrefixList : List Char → List Char → Bool
  | [], _ => true
  | _ :: _, [] => false
  | a :: as, b :: bs => a == b && isPrefixList as bs

/-- Does the second list contain the first as a contiguous segment. -/
def containsSub (needle : List Char) : List Char → Bool
  | [] => isPrefixList needle []
  | b :: bs => isPrefixList needle (b :: bs) || containsSub needle bs

/-- Substring test on strings (Python `needle in hay`). -/
def containsStr (hay needle : String) : Bool := containsSub needle.data hay.data

/-- Python s.startswith(pre). -/
def pyStartsWith (s pre : String) : Bool := isPrefixList pre.data s.data

def lastCharOf : List Char → Option Char
  | [] => none
  | [c] => some c
  | _ :: c :: cs => lastCharOf (c :: cs)

/-- Index just past the last slash of the list, 0 when there is none:
Python p.rfind("/") + 1, as used by posixpath.split. -/
def afterLastSlash (cs : List Char) : Nat :=
  cs.length - (cs.reverse.takeWhile (fun c => c != '/')).length

def rstripSlashes (cs : List Char) : List Char :=
  (cs.reverse.dropWhile (fun c => c == '/')).reverse

/-- Python os.path.split (posixpath): split at the final slash, then strip
trailing slashes from the head unless it is all slashes. -/
def pySplit (p : String) : String × String :=
  let cs := p.data
  let i := afterLastSlash cs
  let head := cs.take i
  let tail := cs.drop i
  let head := if !head.isEmpty && !(head.all (fun c => c == '/')) then rstripSlashes head else head
  (String.mk head, String.mk tail)

def pyBasename (p : String) : String := (pySplit p).2

/-- Python os.path.join (posixpath) restricted to two components. -/
def pyJoin (a b : String) : String :=
  if isPrefixList ['/'] b.data then b
  else if a == "" || lastCharOf a.data == some '/' then a ++ b
  else a ++ "/" ++ b

/-- resource_range from aegea_launcher.py (lines 14-25): the validator built
for a named resource accepts an integer inside [min_val, max_val] and returns
it unchanged; outside the bounds it raises argparse.ArgumentTypeError.  The
source formats only the resource name into the message (the bound is dropped
by the format string), which the embedding reproduces. -/
def resource_range (name : String) (min_val max_val : Int) (value : Int) : Except String Int :=
  if value < min_val then Except.error (name ++ " must be at least")
  else if value > max_val then Except.error (name ++ " can be at most")
  else Except.ok value

/-- The launcher arguments after argparse (aegea_launcher.py lines 50-121).
Optional flags the user did not pass are `none` (Python None). -/
structure LauncherArgs where
  s3_script_path : String
  script_name : String
  script_args : String
  ecr_image : Option String
  ami : Option String
  queue : String
  vcpus : Nat
  memory : Nat
  storage : Option Nat
  ulimits : Option (List String)
  environment : Option (List String)
  dryrun : Bool
  upload : Bool
  debug : Bool
  testargs : Bool

/-- Python truthiness of an optional string (None and "" are falsy). -/
def pyTruthy : Option String → Bool
  | none => false
  | some s => !(s == "")

/-- Python truthiness of an optional integer (None and 0 are falsy). -/
def pyTruthyNat : Option Nat → Bool
  | none => false
  | some n => !(n == 0)

/-- Python truthiness of an optional list (None and [] are falsy). -/
def pyTruthyList : Option (List String) → Bool
  | none => false
  | some l => !l.isEmpty

/-- argparse behaviour of the mutually exclusive image group (lines 81-85):
supplying both --ecr-image and --ami is rejected at parse time. -/
def mutexOk (ecr ami : Option String) : Bool := !(ecr.isSome && ami.isSome)

/-- Lines 123-124: `if not args.ecr_image or args.ami:` sets the default ECR
image.  The Python condition parses as (not ecr) or ami, which also fires
when only --ami was supplied. -/
def applyImageDefault (a : LauncherArgs) : LauncherArgs :=
  if !(pyTruthy a.ecr_image) || pyTruthy a.ami then
    { a with ecr_image := some "sra_download" }
  else a

/-- Line 130: s3_bucket = os.path.split(args.s3_script_path)[0]. -/
def s3bucket (a : LauncherArgs) : String := (pySplit a.s3_script_path).1

/-- Lines 128-132: s3_key joins the path remainder with the script basename. -/
def s3key (a : LauncherArgs) : String :=
  pyJoin (pySplit a.s3_script_path).2 (pyBasename a.script_name)

/-- Lines 196-199: the shell payload run on the remote worker. -/
def job_command (a : LauncherArgs) : String :=
  "aws s3 cp s3://" ++ pyJoin (s3bucket a) (s3key a) ++ " .; chmod 755 "
    ++ pyBasename a.script_name ++ "; ./" ++ pyBasename a.script_name ++ " " ++ a.script_args

/-- Lines 201-220: the aegea batch submit invocation as a token list. -/
def aegea_command (a : LauncherArgs) : List String :=
  ["aegea", "batch", "submit", "--queue", a.queue,
   "--vcpus", toString a.vcpus, "--memory", toString a.memory]
  ++ (if pyTruthy a.ecr_image then ["--ecr-image", a.ecr_image.getD ""]
      else if pyTruthy a.ami then ["--ami", a.ami.getD ""] else [])
  ++ (if pyTruthyNat a.storage then ["--storage", "/mnt=" ++ toString (a.storage.getD 0)] else [])
  ++ (if pyTruthyList a.ulimits then ["--ulimits", String.intercalate " " (a.ulimits.getD [])] else [])
  ++ (if pyTruthyList a.environment then
        ["--environment", String.intercalate " " (a.environment.getD [])] else [])
  ++ ["--command", "\"" ++ job_command a ++ "\""]

/-- Line 222/224: the joined command string that is logged and submitted. -/
def assembled_command (a : LauncherArgs) : String :=
  String.intercalate " " (aegea_command a)

/-- A concrete launcher invocation with only the positional arguments and
the argparse defaults. -/
def baseLauncherArgs : LauncherArgs :=
  { s3_script_path := "my-bucket/scripts", script_name := "run_me.py",
    script_args := "--taxon mus", ecr_image := none, ami := none,
    queue := "aegea_batch", vcpus := 1, memory := 4000, storage := none,
    ulimits := none, environment := none,
    dryrun := false, upload := false, debug := false, testargs := false }

/-- baseLauncherArgs with only the --ami selector supplied. -/
def amiOnlyArgs : LauncherArgs := { baseLauncherArgs with ami := some "ami-12345678" }

/-- C9: resource_range with the declared bounds (--vcpus [1,64], --memory
[0,256000], --storage [500,16000], lines 89-100) accepts every in-range
integer unchanged and rejects every out-of-range integer with an
ArgumentTypeError message naming the resource. -/
theorem C9_resource_range_bounds (v : Int) :
    resource_range "vcpus" 1 64 v
      = (if v < 1 then Except.error "vcpus must be at least"
         else if v > 64 then Except.error "vcpus can be at most" else Except.ok v)
    ∧ resource_range "memory" 0 256000 v
      = (if v < 0 then Except.error "memory must be at least"
         else if v > 256000 then Except.error "memory can be at most" else Except.ok v)
    ∧ resource_range "storage" 500 16000 v
      = (if v < 500 then Except.error "storage must be at least"
         else if v > 16000 then Except.error "storage can be at most" else Except.ok v) :=
  ⟨rfl, rfl, rfl⟩

/-- C4 (code bug): with neither selector supplied the default ECR image
sra_download is installed, and argparse rejects both selectors together; but
with only --ami supplied, the condition on line 123 parses as
(not args.ecr_image) or args.ami, so the default ECR image is installed
anyway and the assembled command carries --ecr-image sra_download and no
--ami flag: the elif branch for --ami on line 208 is unreachable. -/
theorem C4_image_selector_eval :
    (applyImageDefault baseLauncherArgs).ecr_image = some "sra_download"
    ∧ mutexOk (some "my_image") (some "ami-12345678") = false
    ∧ (applyImageDefault amiOnlyArgs).ecr_image = some "sra_download"
    ∧ "--ecr-image" ∈ aegea_command (applyImageDefault amiOnlyArgs)
    ∧ "sra_download" ∈ aegea_command (applyImageDefault amiOnlyArgs)
    ∧ "--ami" ∉ aegea_command (applyImageDefault amiOnlyArgs)
    ∧ "ami-12345678" ∉ aegea_command (applyImageDefault amiOnlyArgs) := by
  decide

/-- bcl2fastq.py line 14. -/
def S3_RETRY : Nat := 5

/-- bcl2fastq.py line 15. -/
def S3_LOG_DIR : String := "s3://jamestwebber-logs/bcl2fastq_logs/"

/-- The demux runner arguments after argparse (bcl2fastq.py lines 23-45). -/
structure DemuxArgs where
  exp_id : String
  s3_input_dir : String
  s3_output_dir : String
  s3_report_dir : String
  s3_sample_sheet_dir : String
  star_structure : Bool
  bcl2fastq_options : String
  skip_undetermined : Bool
  sample_sheet_name : Option String
  root_dir : String

/-- The argparse defaults of get_parser, with a concrete experiment id. -/
def defaultDemuxArgs : DemuxArgs :=
  { exp_id := "exp1",
    s3_input_dir := "s3://czbiohub-seqbot/bcl",
    s3_output_dir := "s3://czbiohub-seqbot/fastqs",
    s3_report_dir := "s3://czbiohub-seqbot/reports",
    s3_sample_sheet_dir := "s3://czbiohub-seqbot/sample-sheets",
    star_structure := false, bcl2fastq_options := "--no-lane-splitting",
    skip_undetermined := false, sample_sheet_name := none, root_dir := "/mnt" }

/-- Lines 64-65: the sample sheet name defaults to (exp_id).csv. -/
def effectiveSheetName (a : DemuxArgs) : String :=
  match a.sample_sheet_name with
  | some n => n
  | none => a.exp_id ++ ".csv"

/-- Does the character list begin with a block matching the regex fragment
_R[12]_001.fastq.gz, whose two dots match any character; characters after
the block are unconstrained (re.match does not anchor the end). -/
def sampleSuffixAt : List Char → Bool
  | '_' :: 'R' :: r :: '_' :: '0' :: '0' :: '1' :: _ :: 'f' :: 'a' :: 's' :: 't' :: 'q'
      :: _ :: 'g' :: 'z' :: _ => r == '1' || r == '2'
  | _ => false

/-- re.match("(.+)(_R[12]_001.fastq.gz)", name) from line 133: the greedy
(.+) takes the longest nonempty head such that the remainder begins with the
suffix block.  Returns group(1) when the pattern matches. -/
def reMatchSample (name : String) : Option String :=
  match (List.range name.data.length).reverse.find?
      (fun i => decide (1 ≤ i) && sampleSuffixAt (name.data.drop i)) with
  | some i => some (String.mk (name.data.take i))
  | none => none

/-- The entries of the bcl2fastq output directory that the reorganisation
loop touches: fastq.gz files at the top level, subdirectories created so
far, and (directory, file) pairs for files moved into subdirectories. -/
structure DemuxFS where
  top : List String
  dirs : List String
  sub : List (String × String)
  deriving DecidableEq

def mkFS (files : List String) : DemuxFS := { top := files, dirs := [], sub := [] }

/-- One iteration of the reorganisation loop (bcl2fastq.py lines 127-147):
delete an Undetermined-prefixed file when --skip_undetermined is set;
otherwise, when --star_structure is set and the regex matches, create the
per-sample directory if os.path.exists finds none and move the file there;
a file the regex does not match is left in place with a warning. -/
def reorgOne (skip_undetermined star_structure : Bool) (fs : DemuxFS) (f : String) : DemuxFS :=
  if skip_undetermined && pyStartsWith f "Undetermined" then
    { fs with top := fs.top.erase f }
  else if star_structure then
    match reMatchSample f with
    | some sample =>
      let fs1 := if fs.dirs.contains sample || fs.top.contains sample then fs
                 else { fs with dirs := fs.dirs ++ [sample] }
      { fs1 with top := fs1.top.erase f, sub := fs1.sub ++ [(sample, f)] }
    | none => fs
  else fs

/-- The whole reorganisation loop over the glob snapshot (lines 124-147). -/
def reorg (skip_undetermined star_structure : Bool) (files : List String) (fs : DemuxFS) :
    DemuxFS :=
  files.foldl (reorgOne skip_undetermined star_structure) fs

/-- The file set named by the spec scenario. -/
def demoFiles : List String :=
  ["SampleA_R1_001.fastq.gz", "SampleA_R2_001.fastq.gz", "Undetermined_R1_001.fastq.gz"]

/-- C8: with --skip_undetermined set (and --star_structure at its default),
the Undetermined file is deleted and the SampleA files keep their places:
nothing is moved, no directory is created. -/
theorem C8_skip_undetermined :
    (reorg true false demoFiles (mkFS demoFiles)).top
      = ["SampleA_R1_001.fastq.gz", "SampleA_R2_001.fastq.gz"]
    ∧ (reorg true false demoFiles (mkFS demoFiles)).dirs = []
    ∧ (reorg true false demoFiles (mkFS demoFiles)).sub = []
    ∧ (reorg true false demoFiles (mkFS demoFiles)).top.all
        (fun f => !(pyStartsWith f "Undetermined")) = true := by
  decide

/-- C1 is false on the code: with --star_structure set, the name
Undetermined_R1_001.fastq.gz also matches the regex, so it does not remain
at the top level of the output directory. -/
theorem C1_counterexample :
    ¬ ((reorg false true demoFiles (mkFS demoFiles)).dirs.contains "SampleA" = true
       ∧ (reorg false true demoFiles (mkFS demoFiles)).sub.contains
           ("SampleA", "SampleA_R1_001.fastq.gz") = true
       ∧ (reorg false true demoFiles (mkFS demoFiles)).sub.contains
           ("SampleA", "SampleA_R2_001.fastq.gz") = true
       ∧ (reorg false true demoFiles (mkFS demoFiles)).top.contains
           "Undetermined_R1_001.fastq.gz" = true) := by
  decide

/-- C1 (amended): with --star_structure set and --skip_undetermined unset,
a SampleA subdirectory holds both SampleA files, and the Undetermined file,
whose name also matches the pattern, is moved into an Undetermined
subdirectory, leaving the top level empty. -/
theorem C1_star_structure_reorg :
    (reorg false true demoFiles (mkFS demoFiles)).dirs = ["SampleA", "Undetermined"]
    ∧ (reorg false true demoFiles (mkFS demoFiles)).sub
        = [("SampleA", "SampleA_R1_001.fastq.gz"), ("SampleA", "SampleA_R2_001.fastq.gz"),
           ("Undetermined", "Undetermined_R1_001.fastq.gz")]
    ∧ (reorg false true demoFiles (mkFS demoFiles)).top = [] := by
  decide

/-- The retry pattern of bcl2fastq.py (for i in range(S3_RETRY): try the
command and break; on CalledProcessError log and retry; else raise).
`outcomes i` is the success of attempt number i; the result is the number
of invocations performed and whether one succeeded. -/
def retryFrom (outcomes : Nat → Bool) : Nat → Nat → Nat × Bool
  | _, 0 => (0, false)
  | i, f + 1 =>
    if outcomes i then (1, true)
    else
      let r := retryFrom outcomes (i + 1) f
      (r.1 + 1, r.2)

/-- A whole retry-wrapped operation: up to S3_RETRY invocations. -/
def retryRun (outcomes : Nat → Bool) : Nat × Bool := retryFrom outcomes 0 S3_RETRY

/-- The four retry-wrapped operations of the demux runner. -/
inductive RetryOp
  | sampleSheet
  | syncBcl
  | syncFastq
  | cpReports
  deriving DecidableEq

/-- The RuntimeError message raised when an operation exhausts its retries
(bcl2fastq.py lines 87-90, 103-106, 161-162, 185-186). -/
def retryFailureMessage (a : DemuxArgs) : RetryOp → String
  | RetryOp.sampleSheet =>
      "couldn\x27t download sample sheet " ++ pyJoin a.s3_sample_sheet_dir (effectiveSheetName a)
  | RetryOp.syncBcl => "couldn\x27t sync " ++ pyJoin a.s3_input_dir a.exp_id
  | RetryOp.syncFastq => "couldn\x27t sync fastqs"
  | RetryOp.cpReports => "couldn\x27t cp reports"

theorem isPrefixList_self (l : List Char) : isPrefixList l l = true := by
  induction l with
  | nil => rfl
  | cons a as ih => simp [isPrefixList, ih]

theorem containsSub_append (l p : List Char) : containsSub l (p ++ l) = true := by
  induction p with
  | nil =>
    cases l with
    | nil => rfl
    | cons b bs => simp [containsSub, isPrefixList_self]
  | cons x xs ih => simp [containsSub, ih]

theorem containsStr_append (p l : String) : containsStr (p ++ l) l = true := by
  unfold containsStr
  rw [String.data_append]
  exact containsSub_append _ _

theorem retryFrom_fail_then_succeed (outcomes : Nat → Bool) :
    ∀ k i f, k < f → (∀ j, j < k → outcomes (i + j) = false) → outcomes (i + k) = true →
      retryFrom outcomes i f = (k + 1, true) := by
  intro k
  induction k with
  | zero =>
    intro i f hf _ hs
    cases f with
    | zero => omega
    | succ f =>
      have h0 : outcomes i = true := by simpa using hs
      simp [retryFrom, h0]
  | succ k ih =>
    intro i f hf hfail hs
    cases f with
    | zero => omega
    | succ f =>
      have h0 : outcomes i = false := by simpa using hfail 0 (Nat.succ_pos k)
      have hr : retryFrom outcomes (i + 1) f = (k + 1, true) := by
        apply ih
        · omega
        · intro j hj
          rw [show i + 1 + j = i + (j + 1) from by omega]
          exact hfail (j + 1) (by omega)
        · rw [show i + 1 + k = i + (k + 1) from by omega]
          exact hs
      simp [retryFrom, h0, hr]

theorem retryFrom_all_fail (outcomes : Nat → Bool) :
    ∀ f i, (∀ j, j < f → outcomes (i + j) = false) → retryFrom outcomes i f = (f, false) := by
  intro f
  induction f with
  | zero => intro i _; rfl
  | succ f ih =>
    intro i hfail
    have h0 : outcomes i = false := by simpa using hfail 0 (Nat.succ_pos f)
    have hr : retryFrom outcomes (i + 1) f = (f, false) := by
      apply ih
      intro j hj
      rw [show i + 1 + j = i + (j + 1) from by omega]
      exact hfail (j + 1) (by omega)
    simp [retryFrom, h0, hr]

/-- C5 (amended): a retry-wrapped operation that fails k < 5 times and then
succeeds performs exactly k + 1 invocations and succeeds; one that always
fails performs exactly 5 invocations and raises.  The escalated error names
the operation for all four operations, and names the target path for the
sample-sheet download and the raw-data sync; the fastq-upload and
report-copy errors carry no path. -/
theorem C5_retry_semantics (outcomes : Nat → Bool) (k : Nat) (a : DemuxArgs) :
    (k < S3_RETRY → (∀ j, j < k → outcomes j = false) → outcomes k = true →
       retryRun outcomes = (k + 1, true))
    ∧ ((∀ j, j < S3_RETRY → outcomes j = false) → retryRun outcomes = (S3_RETRY, false))
    ∧ containsStr (retryFailureMessage a RetryOp.sampleSheet)
        (pyJoin a.s3_sample_sheet_dir (effectiveSheetName a)) = true
    ∧ containsStr (retryFailureMessage a RetryOp.syncBcl)
        (pyJoin a.s3_input_dir a.exp_id) = true
    ∧ retryFailureMessage a RetryOp.syncFastq = "couldn\x27t sync fastqs"
    ∧ retryFailureMessage a RetryOp.cpReports = "couldn\x27t cp reports" := by
  refine ⟨?_, ?_, ?_, ?_, rfl, rfl⟩
  · intro hk hfail hs
    unfold retryRun
    apply retryFrom_fail_then_succeed outcomes k 0 S3_RETRY hk
    · intro j hj
      simpa using hfail j hj
    · simpa using hs
  · intro hfail
    unfold retryRun
    exact retryFrom_all_fail outcomes S3_RETRY 0 (fun j hj => by simpa using hfail j hj)
  · exact containsStr_append _ _
  · exact containsStr_append _ _

/-- C5 is false as stated: for the fastq-upload operation (and likewise the
report copy) the escalated error names the operation but not the target
path involved; at the default arguments neither the S3 destination nor any
path appears in the message. -/
theorem C5_counterexample :
    retryFailureMessage defaultDemuxArgs RetryOp.syncFastq = "couldn\x27t sync fastqs"
    ∧ containsStr (retryFailureMessage defaultDemuxArgs RetryOp.syncFastq)
        (pyJoin (pyJoin defaultDemuxArgs.s3_output_dir defaultDemuxArgs.exp_id) "rawdata")
        = false
    ∧ containsStr (retryFailureMessage defaultDemuxArgs RetryOp.cpReports)
        (pyJoin defaultDemuxArgs.s3_report_dir defaultDemuxArgs.exp_id) = false := by
  decide

/-- Witness for C5_retry_semantics: two failures then a success gives three
invocations; constant failure gives five invocations and no success. -/
theorem C5_witness :
    retryRun (fun i => decide (2 ≤ i)) = (3, true)
    ∧ retryRun (fun _ => false) = (5, false) := by
  constructor
  · exact (C5_retry_semantics (fun i => decide (2 ≤ i)) 2 defaultDemuxArgs).1
      (by decide) (by decide) (by decide)
  · exact (C5_retry_semantics (fun _ => false) 0 defaultDemuxArgs).2.1 (fun j hj => rfl)

/-- Observable steps of the demux runner, in program order. -/
inductive DEvent
  | retryDone (op : RetryOp) (invocations : Nat)
  | samplerStart
  | bcl2fastqRun
  | reorgDone (fs : DemuxFS)
  | lsFastq
  | reportsLs
  | samplerKill
  | logException
  | logInfo (msg : String)
  | uploadLog (file dest : String)
  deriving DecidableEq

/-- What the outside world does on each external call of one run: per-attempt
outcomes of the four retry loops, success of the bcl2fastq binary, of the
aws s3 ls check and of the reports-path listing, and the fastq.gz files the
binary left in the output directory. -/
structure DemuxWorld where
  sheetOutcomes : Nat → Bool
  bclOutcomes : Nat → Bool
  fastqOutcomes : Nat → Bool
  reportOutcomes : Nat → Bool
  bcl2fastqOk : Bool
  lsOk : Bool
  reportsLsOk : Bool
  fastqgzFiles : List String

def isOkE {e a : Type} : Except e a → Bool
  | Except.ok _ => true
  | Except.error _ => false

/-- main of bcl2fastq.py (lines 54-188) as a trace of events and an outcome:
sample-sheet download with retry, raw-data sync with retry, start of the
background sampler (line 114), the bcl2fastq run, the reorganisation loop,
fastq upload with retry, the s3 ls check, the reports listing, report copy
with retry, and only then p.kill() (line 188).  A failing step raises at
that point; no cleanup block surrounds the sampler. -/
def demuxMain (a : DemuxArgs) (w : DemuxWorld) : List DEvent × Except String Unit :=
  let r1 := retryRun w.sheetOutcomes
  let t1 := [DEvent.retryDone RetryOp.sampleSheet r1.1]
  if r1.2 = false then (t1, Except.error (retryFailureMessage a RetryOp.sampleSheet)) else
  let r2 := retryRun w.bclOutcomes
  let t2 := t1 ++ [DEvent.retryDone RetryOp.syncBcl r2.1]
  if r2.2 = false then (t2, Except.error (retryFailureMessage a RetryOp.syncBcl)) else
  let t3 := t2 ++ [DEvent.samplerStart, DEvent.bcl2fastqRun]
  if w.bcl2fastqOk = false then (t3, Except.error "bcl2fastq command failed") else
  let t4 := t3 ++ [DEvent.reorgDone
      (reorg a.skip_undetermined a.star_structure w.fastqgzFiles (mkFS w.fastqgzFiles))]
  let r3 := retryRun w.fastqOutcomes
  let t5 := t4 ++ [DEvent.retryDone RetryOp.syncFastq r3.1]
  if r3.2 = false then (t5, Except.error (retryFailureMessage a RetryOp.syncFastq)) else
  let t6 := t5 ++ [DEvent.lsFastq]
  if w.lsOk = false then (t6, Except.error "aws s3 ls after the fastq upload failed") else
  let t7 := t6 ++ [DEvent.reportsLs]
  if w.reportsLsOk = false then (t7, Except.error "listing the reports directory failed") else
  let r4 := retryRun w.reportOutcomes
  let t8 := t7 ++ [DEvent.retryDone RetryOp.cpReports r4.1]
  if r4.2 = false then (t8, Except.error (retryFailureMessage a RetryOp.cpReports)) else
  (t8 ++ [DEvent.samplerKill], Except.ok ())

/-- The entry point (bcl2fastq.py lines 191-229): run main under
try/except/finally; on exception log it and re-raise; in all cases, when
AWS_BATCH_JOB_ID was set, log the aws s3 cp command for the log file and
run it, as the very last step before the process exits. -/
def demuxEntry (a : DemuxArgs) (jobId : Option String) (w : DemuxWorld) :
    List DEvent × Except String Unit :=
  let r := demuxMain a w
  let finTr : List DEvent :=
    match jobId with
    | some j => [DEvent.logInfo ("aws s3 cp " ++ (j ++ ".log") ++ " " ++ S3_LOG_DIR),
                 DEvent.uploadLog (j ++ ".log") S3_LOG_DIR]
    | none => []
  match r.2 with
  | Except.ok _ => (r.1 ++ finTr, Except.ok ())
  | Except.error e => (r.1 ++ [DEvent.logException] ++ finTr, Except.error e)

/-- C3 (amended): the sampler process is killed exactly on the normal
completion path; whenever main raises after the sampler was started (the
bcl2fastq run, an upload or a check fails), no kill is performed, since
line 188 is not inside any cleanup block. -/
theorem C3_sampler_kill_iff_success (a : DemuxArgs) (w : DemuxWorld) :
    DEvent.samplerKill ∈ (demuxMain a w).1 ↔ isOkE (demuxMain a w).2 = true := by
  unfold demuxMain
  by_cases h1 : (retryRun w.sheetOutcomes).2 = false <;>
    by_cases h2 : (retryRun w.bclOutcomes).2 = false <;>
      by_cases h3 : w.bcl2fastqOk = false <;>
        by_cases h4 : (retryRun w.fastqOutcomes).2 = false <;>
          by_cases h5 : w.lsOk = false <;>
            by_cases h6 : w.reportsLsOk = false <;>
              by_cases h7 : (retryRun w.reportOutcomes).2 = false <;>
                simp [h1, h2, h3, h4, h5, h6, h7, isOkE]

/-- C3 is false as stated: when the demultiplexing binary fails, the run
propagates the error with the sampler started and never killed. -/
theorem C3_counterexample :
    DEvent.samplerStart ∈ (demuxMain defaultDemuxArgs
      { sheetOutcomes := fun _ => true, bclOutcomes := fun _ => true,
        fastqOutcomes := fun _ => true, reportOutcomes := fun _ => true,
        bcl2fastqOk := false, lsOk := true, reportsLsOk := true,
        fastqgzFiles := [] }).1
    ∧ DEvent.samplerKill ∉ (demuxMain defaultDemuxArgs
      { sheetOutcomes := fun _ => true, bclOutcomes := fun _ => true,
        fastqOutcomes := fun _ => true, reportOutcomes := fun _ => true,
        bcl2fastqOk := false, lsOk := true, reportsLsOk := true,
        fastqgzFiles := [] }).1
    ∧ isOkE (demuxMain defaultDemuxArgs
      { sheetOutcomes := fun _ => true, bclOutcomes := fun _ => true,
        fastqOutcomes := fun _ => true, reportOutcomes := fun _ => true,
        bcl2fastqOk := false, lsOk := true, reportsLsOk := true,
        fastqgzFiles := [] }).2 = false := by
  decide

/-- Witness for C3_sampler_kill_iff_success: on an all-success world the
kill is present in the trace. -/
theorem C3_witness :
    DEvent.samplerKill ∈ (demuxMain defaultDemuxArgs
      { sheetOutcomes := fun _ => true, bclOutcomes := fun _ => true,
        fastqOutcomes := fun _ => true, reportOutcomes := fun _ => true,
        bcl2fastqOk := true, lsOk := true, reportsLsOk := true,
        fastqgzFiles := [] }).1 :=
  (C3_sampler_kill_iff_success defaultDemuxArgs _).mpr (by decide)

/-- C6: on every run of the entry point with the batch-job-id environment
variable set, the upload of the log file to the fixed S3 log directory is
the final step of the trace, on the normal path and on the exception path
alike. -/
theorem C6_log_uploaded_last (a : DemuxArgs) (j : String) (w : DemuxWorld) :
    ∃ t, (demuxEntry a (some j) w).1
      = t ++ [DEvent.logInfo ("aws s3 cp " ++ (j ++ ".log") ++ " " ++ S3_LOG_DIR),
              DEvent.uploadLog (j ++ ".log") S3_LOG_DIR] := by
  unfold demuxEntry
  cases h : (demuxMain a w).2 with
  | ok v => exact ⟨(demuxMain a w).1, by simp [h]⟩
  | error e => exact ⟨(demuxMain a w).1 ++ [DEvent.logException], by simp [h]⟩

/-- Observable steps of the launcher, in program order. -/
inductive LEvent
  | logInfo (msg : String)
  | logDebug (msg : String)
  | logError (msg : String)
  | s3Upload (filename bucket key : String)
  | s3Head (bucket key : String)
  | execModule (name : String)
  | parseArgsTest (argstr : String)
  | submit (cmd : String)
  deriving DecidableEq

/-- The errors the launcher raises (ValueError messages, a re-raised script
parser failure, a failing submission subprocess). -/
inductive LauncherError
  | valueError (msg : String)
  | scriptArgsError
  | submitFailed
  deriving DecidableEq

/-- What the outside world answers during one launcher run. -/
structure LauncherWorld where
  scriptExistsLocally : Bool
  s3ObjectExists : Bool
  hasGetParser : Bool
  scriptArgsParseOk : Bool
  submitOk : Bool
  jobId : String

/-- aegea_launcher.py lines 137-161: with --upload, check the script exists
locally, log, and upload unless --dryrun; without --upload, head_object the
key and raise when it is absent. -/
def uploadStep (a : LauncherArgs) (w : LauncherWorld) : List LEvent × Option LauncherError :=
  if a.upload then
    if w.scriptExistsLocally = false then
      ([], some (LauncherError.valueError ("Can\x27t find script: " ++ a.script_name)))
    else
      ([LEvent.logInfo ("Uploading " ++ a.script_name ++ " to s3://"
          ++ pyJoin (s3bucket a) (s3key a)),
        LEvent.logDebug ("Filename: " ++ a.script_name ++ ", Bucket: " ++ s3bucket a
          ++ ", Key: " ++ s3key a)]
        ++ (if a.dryrun then [] else [LEvent.s3Upload a.script_name (s3bucket a) (s3key a)]),
       none)
  else
    ([LEvent.s3Head (s3bucket a) (s3key a)],
     if w.s3ObjectExists then none
     else some (LauncherError.valueError (a.script_name ++ " is not on s3, you should upload it.")))

/-- Lines 163-194: with --testargs, check the script exists, import it as a
module, require a get_parser entry point, and try the argument string on the
parser it returns. -/
def testargsStep (a : LauncherArgs) (w : LauncherWorld) : List LEvent × Option LauncherError :=
  if a.testargs then
    if w.scriptExistsLocally = false then
      ([], some (LauncherError.valueError ("Can\x27t find script: " ++ a.script_name)))
    else if w.hasGetParser = false then
      ([LEvent.logDebug "Testing script args", LEvent.logDebug "Importing script as a module",
        LEvent.execModule a.script_name],
       some (LauncherError.valueError
         (a.script_name ++ " has no \x27get_parser\x27 method, can\x27t test args")))
    else if w.scriptArgsParseOk = false then
      ([LEvent.logDebug "Testing script args", LEvent.logDebug "Importing script as a module",
        LEvent.execModule a.script_name, LEvent.parseArgsTest a.script_args,
        LEvent.logError (a.script_name ++ " failed with the given arg string\n\t"
          ++ a.script_args)],
       some LauncherError.scriptArgsError)
    else
      ([LEvent.logDebug "Testing script args", LEvent.logDebug "Importing script as a module",
        LEvent.execModule a.script_name, LEvent.parseArgsTest a.script_args,
        LEvent.logDebug "Script parsed args successfully"], none)
  else ([], none)

/-- Lines 222-226: log the joined command, and unless --dryrun invoke the
submission CLI and log the returned job id. -/
def submitStep (a : LauncherArgs) (w : LauncherWorld) : List LEvent × Option LauncherError :=
  if a.dryrun then
    ([LEvent.logInfo ("executing command:\n\t" ++ assembled_command a)], none)
  else if w.submitOk then
    ([LEvent.logInfo ("executing command:\n\t" ++ assembled_command a),
      LEvent.submit (assembled_command a),
      LEvent.logInfo ("Launched job with jobId: " ++ w.jobId)], none)
  else
    ([LEvent.logInfo ("executing command:\n\t" ++ assembled_command a),
      LEvent.submit (assembled_command a)], some LauncherError.submitFailed)

/-- The launcher main flow (lines 121-226): apply the image default, run the
upload-or-check block, then the testargs block, then assemble and submit.
An error in a block raises there; later blocks never run. -/
def launcherMain (a0 : LauncherArgs) (w : LauncherWorld) : List LEvent × Except LauncherError Unit :=
  let a := applyImageDefault a0
  let t0 := [LEvent.logDebug "Starting S3 client"]
  let up := uploadStep a w
  match up.2 with
  | some e => (t0 ++ up.1, Except.error e)
  | none =>
    let ts := testargsStep a w
    match ts.2 with
    | some e => (t0 ++ up.1 ++ ts.1, Except.error e)
    | none =>
      let sub := submitStep a w
      (t0 ++ up.1 ++ ts.1 ++ sub.1,
       match sub.2 with
       | some e => Except.error e
       | none => Except.ok ())

@[simp] theorem applyImageDefault_upload (a : LauncherArgs) :
    (applyImageDefault a).upload = a.upload := by
  unfold applyImageDefault; split <;> rfl

@[simp] theorem applyImageDefault_dryrun (a : LauncherArgs) :
    (applyImageDefault a).dryrun = a.dryrun := by
  unfold applyImageDefault; split <;> rfl

@[simp] theorem applyImageDefault_testargs (a : LauncherArgs) :
    (applyImageDefault a).testargs = a.testargs := by
  unfold applyImageDefault; split <;> rfl

@[simp] theorem applyImageDefault_script_name (a : LauncherArgs) :
    (applyImageDefault a).script_name = a.script_name := by
  unfold applyImageDefault; split <;> rfl

@[simp] theorem applyImageDefault_script_args (a : LauncherArgs) :
    (applyImageDefault a).script_args = a.script_args := by
  unfold applyImageDefault; split <;> rfl

@[simp] theorem s3bucket_applyImageDefault (a : LauncherArgs) :
    s3bucket (applyImageDefault a) = s3bucket a := by
  unfold s3bucket applyImageDefault; split <;> rfl

@[simp] theorem s3key_applyImageDefault (a : LauncherArgs) :
    s3key (applyImageDefault a) = s3key a := by
  unfold s3key applyImageDefault; split <;> rfl

theorem assembled_flags_invariant (x : LauncherArgs) (d u dbg t : Bool) :
    assembled_command (applyImageDefault
        { x with dryrun := d, upload := u, debug := dbg, testargs := t })
      = assembled_command (applyImageDefault x) := by
  unfold applyImageDefault
  split <;> rfl

/-- C2 (amended): with --testargs set and the target script lacking a
get_parser entry point, the run always fails before any submission step
(no submit call ever occurs); but the upload step is not prevented: when
--upload is set outside dry-run and the script exists, the S3 upload has
already been performed before the configuration error is raised, because
the upload block precedes the testargs block. -/
theorem C2_testargs_fails_before_submit (a : LauncherArgs) (w : LauncherWorld)
    (ht : a.testargs = true) (hg : w.hasGetParser = false) :
    isOkE (launcherMain a w).2 = false
    ∧ (∀ s, LEvent.submit s ∉ (launcherMain a w).1)
    ∧ (a.upload = true → a.dryrun = false → w.scriptExistsLocally = true →
        LEvent.s3Upload a.script_name (s3bucket a) (s3key a) ∈ (launcherMain a w).1) := by
  cases hu : a.upload <;> cases hsc : w.scriptExistsLocally <;>
    cases hs3 : w.s3ObjectExists <;> cases hd : a.dryrun <;>
      simp [launcherMain, uploadStep, testargsStep, submitStep, ht, hg, hu, hsc, hs3, hd, isOkE]

/-- Concrete launcher invocation with --upload and --testargs. -/
def c2Args : LauncherArgs := { baseLauncherArgs with upload := true, testargs := true }

/-- A world where the script exists and is on S3 but has no get_parser. -/
def c2World : LauncherWorld :=
  { scriptExistsLocally := true, s3ObjectExists := true, hasGetParser := false,
    scriptArgsParseOk := true, submitOk := true, jobId := "job-1" }

/-- C2 is false as stated: in this run the S3 upload has happened by the
time the missing-get_parser configuration error is raised. -/
theorem C2_counterexample :
    LEvent.s3Upload "run_me.py" "my-bucket" "scripts/run_me.py" ∈ (launcherMain c2Args c2World).1
    ∧ (launcherMain c2Args c2World).2
        = Except.error (LauncherError.valueError
            ("run_me.py has no \x27get_parser\x27 method, can\x27t test args")) :=
  ⟨by decide, by rfl⟩

/-- Witness for C2_testargs_fails_before_submit at a concrete invocation. -/
theorem C2_witness :
    isOkE (launcherMain c2Args c2World).2 = false
    ∧ LEvent.s3Upload c2Args.script_name (s3bucket c2Args) (s3key c2Args)
        ∈ (launcherMain c2Args c2World).1 :=
  ⟨(C2_testargs_fails_before_submit c2Args c2World rfl rfl).1,
   (C2_testargs_fails_before_submit c2Args c2World rfl rfl).2.2 rfl rfl rfl⟩

/-- C7: with --dryrun set the submission CLI is never invoked on any path,
and when the run completes it has logged exactly the command string that
the same invocation without --dryrun passes to the submission call. -/
theorem C7_dryrun_no_submit (a : LauncherArgs) (w : LauncherWorld) (hd : a.dryrun = true) :
    (∀ s, LEvent.submit s ∉ (launcherMain a w).1)
    ∧ (isOkE (launcherMain a w).2 = true →
        LEvent.logInfo ("executing command:\n\t" ++ assembled_command (applyImageDefault a))
          ∈ (launcherMain a w).1)
    ∧ (∀ s, LEvent.submit s ∈ (launcherMain { a with dryrun := false } w).1 →
        s = assembled_command (applyImageDefault a)) := by
  cases hu : a.upload <;> cases hsc : w.scriptExistsLocally <;>
    cases hs3 : w.s3ObjectExists <;> cases ht : a.testargs <;> cases hg : w.hasGetParser <;>
      cases hp : w.scriptArgsParseOk <;> cases hsub : w.submitOk <;>
        simp [launcherMain, uploadStep, testargsStep, submitStep, hd, hu, hsc, hs3, ht, hg,
          hp, hsub, isOkE, assembled_flags_invariant]

/-- baseLauncherArgs with --dryrun. -/
def c7Args : LauncherArgs := { baseLauncherArgs with dryrun := true }

/-- A fully cooperative world. -/
def okWorld : LauncherWorld :=
  { scriptExistsLocally := true, s3ObjectExists := true, hasGetParser := true,
    scriptArgsParseOk := true, submitOk := true, jobId := "job-1" }

/-- Witness for C7_dryrun_no_submit: the dry run logs the assembled command. -/
theorem C7_witness :
    LEvent.logInfo ("executing command:\n\t" ++ assembled_command (applyImageDefault c7Args))
      ∈ (launcherMain c7Args okWorld).1 :=
  (C7_dryrun_no_submit c7Args okWorld rfl).2.1 (by decide)

/-- C10: with --dryrun and --upload both set, the S3 upload call itself is
skipped and the submission call never happens, so the object store is left
unchanged; the local existence check still raises when the script is
missing, and the upload log messages are still emitted when it exists. -/
theorem C10_dryrun_upload_skipped (a : LauncherArgs) (w : LauncherWorld)
    (hd : a.dryrun = true) (hu : a.upload = true) :
    (∀ f b k, LEvent.s3Upload f b k ∉ (launcherMain a w).1)
    ∧ (w.scriptExistsLocally = false →
        (launcherMain a w).2 = Except.error (LauncherError.valueError
          ("Can\x27t find script: " ++ a.script_name)))
    ∧ (w.scriptExistsLocally = true →
        LEvent.logInfo ("Uploading " ++ a.script_name ++ " to s3://"
            ++ pyJoin (s3bucket a) (s3key a)) ∈ (launcherMain a w).1
        ∧ LEvent.logDebug ("Filename: " ++ a.script_name ++ ", Bucket: " ++ s3bucket a
            ++ ", Key: " ++ s3key a) ∈ (launcherMain a w).1)
    ∧ (∀ s, LEvent.submit s ∉ (launcherMain a w).1) := by
  cases hsc : w.scriptExistsLocally <;> cases ht : a.testargs <;> cases hg : w.hasGetParser <;>
    cases hp : w.scriptArgsParseOk <;>
      simp [launcherMain, uploadStep, testargsStep, submitStep, hd, hu, hsc, ht, hg, hp, isOkE]

/-- baseLauncherArgs with --dryrun and --upload. -/
def c10Args : LauncherArgs := { baseLauncherArgs with dryrun := true, upload := true }

/-- Witness for C10_dryrun_upload_skipped: the upload log message occurs
while no s3Upload event does. -/
theorem C10_witness :
    (LEvent.logInfo ("Uploading " ++ c10Args.script_name ++ " to s3://"
        ++ pyJoin (s3bucket c10Args) (s3key c10Args)) ∈ (launcherMain c10Args okWorld).1)
    ∧ LEvent.s3Upload "run_me.py" "my-bucket" "scripts/run_me.py"
        ∉ (launcherMain c10Args okWorld).1 :=
  ⟨((C10_dryrun_upload_skipped c10Args okWorld rfl rfl).2.2.1 rfl).1,
   (C10_dryrun_upload_skipped c10Args okWorld rfl rfl).1 "run_me.py" "my-bucket"
     "scripts/run_me.py"⟩
